import Mathlib

/-!
Verification development for the training orchestrator in `kraken/ketos.py`.

The `train` command of that file is embedded shallowly below:

* Geometry resolution (ketos.py lines 99-128): the VGSL descriptor string is
  stripped, checked for surrounding brackets, its leading space-separated
  block is matched against the regex `(\d+),(\d+),(\d+),(\d+)` (a prefix
  match, as `re.match` is), and the resulting `(batch, height, width,
  channels)` quadruple is classified by a four-way priority `if` chain that
  fixes the axis `format`, the `scale` value and possibly zeroes the padding.
  String operations are embedded structurally over `List Char`, mirroring
  Python `str.strip` and `str.split` of one space.
* Corpus partitioning (lines 136-139): the shuffled ground-truth list is cut
  at `int` of the float product of the length and the split fraction; the
  product is rounded to the nearest IEEE-754 binary64 value (ties to even)
  before Python `int` truncation, both computed with integer arithmetic
  (`floatTrunc`), since double rounding is observable in the cut index.
* Corpus construction (lines 141 and 154): the keyword arguments passed to the
  two `GroundTruthDataset` constructor calls are recorded as `GTArgs` values;
  an omitted keyword argument is recorded as `none`.
* The epoch loop (lines 230-255): forward outputs, checkpoint-save results and
  per-pair evaluation counts are external effects, supplied as oracles in
  `LoopCfg` and `Externals`; the loop itself (dimension check, the caught save
  failure, the `(c-e)/c` accuracy report) is embedded faithfully, including the
  Python exceptions each step can raise (`PyErr`).
* `kraken.train.compute_error` is code of the repository that is not under
  src/; it is modelled from the spec where marked below.
-/

namespace Ketos

/-- Python exceptions that the embedded fragments of `ketos.train` can raise.
`badOptionUsage` is `click.BadOptionUsage` (the configuration error the spec
calls `InvalidSpecError` in the geometry paths). -/
inductive PyErr where
  | badOptionUsage (msg : String)
  | indexError
  | zeroDivisionError
  | attributeError (msg : String)
  | krakenInputException (msg : String)
  deriving DecidableEq

/-- The dynamic value bound to the Python variable `scale` by lines 109-128:
either an integer (`channels`, `height`, or the literal `0`) or the pair
`(height, width)`. -/
inductive ScaleVal where
  | int (n : ℕ)
  | pair (h w : ℕ)
  deriving DecidableEq

/-- The scale modes named by the spec.  `scaleModeOf` maps the code's dynamic
`scale` value onto them: the literal `0` is `NoScale`, a positive integer is
`ScaleToHeight`, a pair is `ScaleToFixed`. -/
inductive ScaleMode where
  | NoScale
  | ScaleToHeight (v : ℕ)
  | ScaleToFixed (h w : ℕ)
  deriving DecidableEq

def scaleModeOf : ScaleVal → ScaleMode
  | .int 0 => .NoScale
  | .int (n + 1) => .ScaleToHeight (n + 1)
  | .pair h w => .ScaleToFixed h w

/-- The geometry configuration produced by lines 109-128: the axis `format`
tuple, the `scale` value and the (possibly zeroed) padding. -/
structure Geom where
  format : ℕ × ℕ × ℕ
  scale : ScaleVal
  pad : ℕ
  deriving DecidableEq

/-- The whitespace characters stripped by Python `str.strip`. -/
def isPySpace (ch : Char) : Bool :=
  ch == ' ' || ch == '\t' || ch == '\n' || ch == '\x0d' || ch == '\x0b' || ch == '\x0c'

/-- Python `str.strip()` on the character list of the descriptor. -/
def pyStrip (cs : List Char) : List Char :=
  (((cs.dropWhile isPySpace).reverse).dropWhile isPySpace).reverse

/-- Python `str.split(' ')`: split on every single space, keeping empty
fields. -/
def splitSp : List Char → List (List Char)
  | [] => [[]]
  | ch :: rest =>
    match splitSp rest with
    | [] => [[]]
    | grp :: grps => if ch == ' ' then [] :: grp :: grps else (ch :: grp) :: grps

/-- Value of an ASCII digit character. -/
def digitVal (ch : Char) : ℕ := ch.toNat - 48

/-- Consume the maximal leading run of ASCII digits, accumulating their value,
exactly as the greedy `\d+` does. -/
def munch : List Char → ℕ → ℕ × List Char
  | [], acc => (acc, [])
  | ch :: rest, acc =>
    if ch.isDigit then munch rest (acc * 10 + digitVal ch) else (acc, ch :: rest)

/-- One `\d+` group: requires at least one digit. -/
def parseNum : List Char → Option (ℕ × List Char)
  | [] => none
  | ch :: rest => if ch.isDigit then some (munch (ch :: rest) 0) else none

def expectComma : List Char → Option (List Char)
  | ',' :: rest => some rest
  | _ => none

/-- `re.match` of `(\d+),(\d+),(\d+),(\d+)` against a block (line 103).  Like
`re.match`, this is a prefix match: characters remaining after the fourth
integer are ignored. -/
def parse4 (s : List Char) : Option (ℕ × ℕ × ℕ × ℕ) :=
  match parseNum s with
  | none => none
  | some (b, r1) =>
    match expectComma r1 with
    | none => none
    | some r1a =>
      match parseNum r1a with
      | none => none
      | some (h, r2) =>
        match expectComma r2 with
        | none => none
        | some r2a =>
          match parseNum r2a with
          | none => none
          | some (w, r3) =>
            match expectComma r3 with
            | none => none
            | some r3a =>
              match parseNum r3a with
              | none => none
              | some (c, _) => some (b, h, w, c)

/-- `spec[0] == '[' and spec[-1] == ']'` for a nonempty stripped spec. -/
def bracketOkL (cs : List Char) : Bool :=
  cs.head? == some '[' && cs.getLast? == some ']'

/-- `spec[1:-1].split(' ')[0]` (lines 102-103). -/
def leadingBlockL (cs : List Char) : List Char :=
  (splitSp ((cs.drop 1).dropLast)).headD []

/-- The four-way classification of lines 109-128 applied to the parsed
quadruple.  The `batch` field is ignored by the source, as here. -/
def classify (b h w c p : ℕ) : Except PyErr Geom :=
  if h = 1 ∧ w = 0 ∧ 3 < c then
    .ok { format := (1, 0, 2), scale := .int c, pad := p }
  else if 1 < h ∧ w = 0 ∧ (c = 1 ∨ c = 3) then
    .ok { format := (0, 1, 2), scale := .int h, pad := p }
  else if 0 < h ∧ 0 < w ∧ (c = 1 ∨ c = 3) then
    .ok { format := (0, 1, 2), scale := .pair h w, pad := 0 }
  else if h = 0 ∧ w = 0 ∧ (c = 1 ∨ c = 3) then
    .ok { format := (0, 1, 2), scale := .int 0, pad := 0 }
  else
    .error (.badOptionUsage
      "Invalid input spec (variable height and fixed width not supported)")

/-- Geometry resolution, lines 99-128.  `p` is the caller-supplied `pad`
option.  On the empty stripped string, `spec[0]` raises `IndexError` in
Python before the bracket check can fail, which the first branch records. -/
def resolve (spec : String) (p : ℕ) : Except PyErr Geom :=
  let s := pyStrip spec.data
  if s = [] then .error .indexError
  else if bracketOkL s then
    match parse4 (leadingBlockL s) with
    | some (b, h, w, c) => classify b h w c p
    | none =>
      .error (.badOptionUsage ("Invalid input spec " ++ String.mk (leadingBlockL s)))
  else .error (.badOptionUsage ("VGSL spec " ++ String.mk s ++ " not bracketed"))

/-- The parsed `(batch, height, width, channels)` of a descriptor whose
stripped form is nonempty and bracketed, when the leading block has a
four-integer prefix; `none` otherwise.  Built from the same pieces as
`resolve`. -/
def descriptorInts (spec : String) : Option (ℕ × ℕ × ℕ × ℕ) :=
  let s := pyStrip spec.data
  if s = [] then none
  else if bracketOkL s then parse4 (leadingBlockL s)
  else none

/-! ## The training loop (ketos.py lines 226-255) -/

/-- A Python value that can appear where the loop calls `.size(...)`: either
the network's output tensor (with its shape) or a plain string.  At line 236
the error-message format evaluates `output.size()`, and `output` is the
`--output` CLI option, a string. -/
inductive PyVal where
  | str (s : String)
  | tensor (shape : List ℕ)
  deriving DecidableEq

/-- Attribute access `.size()`: tensors have it, strings raise
`AttributeError` (message modelled without the quote characters). -/
def pySize : PyVal → Except PyErr (List ℕ)
  | .str _ => .error (.attributeError "str object has no attribute size")
  | .tensor sh => .ok sh

/-- Lines 233-237: after the forward pass, `o.size(2)` is compared with 1.
If it differs, the source raises `KrakenInputException` whose message formats
`output.size()` — and `output` is the CLI path string, so that attribute
access is evaluated first. -/
def dimCheck (o : PyVal) (outVar : PyVal) : Except PyErr Unit :=
  match pySize o with
  | .error e => .error e
  | .ok sh =>
    if sh.getD 2 0 ≠ 1 then
      match pySize outVar with
      | .error e => .error e
      | .ok osz =>
        .error (.krakenInputException ("Expected dimension 3 to be 1, actual " ++ toString osz))
    else .ok ()

/-- Configuration and oracles for one run of the epoch loop.  `forward ep t`
is the network output for trial `t` of epoch `ep`; `saveResult ep` is the
outcome of `nn.save_model` at epoch `ep`; `errCounts` gives the per-pair
`(correct, errors)` contribution of the external evaluation. -/
structure LoopCfg where
  epochs : ℕ
  savefreq : ℕ
  report : ℕ
  output : String
  trials : ℕ
  forward : ℕ → ℕ → PyVal
  saveResult : ℕ → Except String Unit
  testPairs : List String
  errCounts : String → ℕ × ℕ

/-- Modelled from the spec: `kraken.train.compute_error` is code of this
repository that is not under src/.  The spec describes it as the external
evaluation capability run "over the test corpus's raw pairs", producing the
`correct_count` and `error_count` of an `EvaluationReport`; it is modelled as
the sum of an abstract per-pair count, so an empty corpus yields `(0, 0)`. -/
def compute_error (counts : String → ℕ × ℕ) (pairs : List String) : ℕ × ℕ :=
  pairs.foldl (fun acc pr => (acc.1 + (counts pr).1, acc.2 + (counts pr).2)) (0, 0)

/-- Lines 252-255: evaluate the test pairs and compute the accuracy
`(c - e) / c` (true division, `from __future__ import division`); when `c` is
zero Python raises `ZeroDivisionError`. -/
def reportStep (counts : String → ℕ × ℕ) (pairs : List String) : Except PyErr ℚ :=
  let ce := compute_error counts pairs
  if ce.1 = 0 then .error .zeroDivisionError
  else .ok (((ce.1 : ℚ) - (ce.2 : ℚ)) / (ce.1 : ℚ))

/-- Lines 243-250: `if epoch and not epoch % savefreq:` then try to save; a
save exception is caught and only echoed (lines 246-247).  `epoch % 0` would
itself raise `ZeroDivisionError` in Python.  The source declares `savefreq`
as a float option; it is modelled at integer values, where Python `%` agrees
with `Nat` modulus. -/
def saveStep (cfg : LoopCfg) (epoch : ℕ) : Except PyErr Unit :=
  if epoch ≠ 0 then
    if cfg.savefreq = 0 then .error .zeroDivisionError
    else if epoch % cfg.savefreq = 0 then
      match cfg.saveResult epoch with
      | .ok _ => .ok ()
      | .error _ => .ok ()
    else .ok ()
  else .ok ()

/-- Lines 251-255: `if epoch and not epoch % report:` then run the evaluation
report, which is not guarded against an empty test corpus. -/
def reportEpochStep (cfg : LoopCfg) (epoch : ℕ) : Except PyErr Unit :=
  if epoch ≠ 0 then
    if cfg.report = 0 then .error .zeroDivisionError
    else if epoch % cfg.report = 0 then
      match reportStep cfg.errCounts cfg.testPairs with
      | .error e => .error e
      | .ok _ => .ok ()
    else .ok ()
  else .ok ()

/-- Lines 231-242: the per-epoch pass over the train loader, one trial per
sample (`batch_size=1`), each trial running the forward pass and the
dimension check.  Loss, backward and optimizer steps are external effects
with no observable outcome in the embedded state. -/
def runTrials (fw : ℕ → PyVal) (outS : String) (t : ℕ) : ℕ → Except PyErr Unit
  | 0 => .ok ()
  | r + 1 =>
    match dimCheck (fw t) (.str outS) with
    | .error e => .error e
    | .ok _ => runTrials fw outS (t + 1) r

/-- One iteration of `for epoch in range(epochs)`: train pass, then the
checkpoint-save step, then the report step, in source order. -/
def epochBody (cfg : LoopCfg) (epoch : ℕ) : Except PyErr Unit :=
  match runTrials (cfg.forward epoch) cfg.output 0 cfg.trials with
  | .error e => .error e
  | .ok _ =>
    match saveStep cfg epoch with
    | .error e => .error e
    | .ok _ => reportEpochStep cfg epoch

/-- Run the loop from `epoch` for `remaining` more epochs; returns the number
of the first epoch that did not run, i.e. the count of completed epochs when
started at 0. -/
def runFrom (cfg : LoopCfg) (epoch : ℕ) : ℕ → Except PyErr ℕ
  | 0 => .ok epoch
  | r + 1 =>
    match epochBody cfg epoch with
    | .error e => .error e
    | .ok _ => runFrom cfg (epoch + 1) r

/-- The whole `for epoch in range(epochs)` loop (lines 230-255). -/
def runLoop (cfg : LoopCfg) : Except PyErr ℕ :=
  runFrom cfg 0 cfg.epochs

/-! ## The train command (ketos.py lines 88-255) -/

/-- The `--optimizer` choice set (line 80). -/
inductive OptChoice where
  | SGD
  | Adam
  | RMSprop
  deriving DecidableEq

/-- The optimizer object constructed at line 227, identified by its class
name and constructor arguments. -/
structure OptimizerInst where
  kind : String
  lr : ℚ
  wdecay : ℚ
  deriving DecidableEq

/-- Line 227: `optimizer = Adam(nn.nn.parameters(), lr=lrate,
weight_decay=wdecay)` — unconditionally `Adam`; the `choice` argument (the
CLI `--optimizer` value) is never consulted. -/
def constructOptimizer (choice : OptChoice) (lrate wdecay : ℚ) : OptimizerInst :=
  { kind := "Adam", lr := lrate, wdecay := wdecay }

/-- The `--normalization` choice set (line 84). -/
inductive NormForm where
  | NFD
  | NFKD
  | NFC
  | NFKC
  deriving DecidableEq

/-- The keyword arguments of a `GroundTruthDataset` constructor call.  A
`none` field records that the keyword was omitted from the call (the
constructor default applies). -/
structure GTArgs where
  normalization : Option NormForm
  reorder : Bool
  scale : Option ScaleVal
  pad : ℕ
  format : ℕ × ℕ × ℕ
  deriving DecidableEq

/-- Observable corpus-side effects of the command, in program order. -/
inductive Event where
  | corpusConstructed (args : GTArgs)
  | sampleAdded (id : String)
  deriving DecidableEq

/-- The CLI options of `ketos train` that the embedded fragment reads. -/
structure TrainOpts where
  pad : ℕ
  output : String
  spec : String
  load : Option String
  savefreq : ℕ
  report : ℕ
  epochs : ℕ
  optimizer : OptChoice
  lrate : ℚ
  wdecay : ℚ
  partition : ℚ
  normalization : Option NormForm
  codec : Option String
  reorder : Bool
  ground_truth : List String

/-- External effects the command consumes: the result of
`np.random.shuffle(ground_truth)` and the loop oracles. -/
structure Externals where
  shuffled : List String
  forward : ℕ → ℕ → PyVal
  saveResult : ℕ → Except String Unit
  errCounts : String → ℕ × ℕ

/-- What a successful run leaves behind, as far as the claims observe it. -/
structure Outcome where
  optimizerUsed : OptimizerInst
  trainArgs : GTArgs
  testArgs : GTArgs
  trainIds : List String
  testIds : List String
  completedEpochs : ℕ
  deriving DecidableEq

/-- Fuel-driven base-2 logarithm: for `0 < n` and fuel at least `n`, returns
the position of the highest set bit of `n`, so `2 ^ nlog2 n ≤ n < 2 ^ (nlog2
n + 1)`.  Structural recursion on the fuel keeps it kernel-reducible. -/
def log2fuel : ℕ → ℕ → ℕ
  | 0, _ => 0
  | f + 1, n => if n < 2 then 0 else log2fuel f (n / 2) + 1

def nlog2 (n : ℕ) : ℕ := log2fuel n n

/-- Whether `2 ^ e ≤ a / b`, decided with integer arithmetic (`0 < b`). -/
def pow2le (e : ℤ) (a b : ℕ) : Bool :=
  if 0 ≤ e then decide (2 ^ e.toNat * b ≤ a) else decide (b ≤ a * 2 ^ (-e).toNat)

/-- The binary exponent of the positive rational `a / b`: the unique `e` with
`2 ^ e ≤ a / b < 2 ^ (e + 1)`.  Since `a / b` lies strictly between
`2 ^ (nlog2 a - nlog2 b - 1)` and `2 ^ (nlog2 a - nlog2 b + 1)`, the
exponent is `nlog2 a - nlog2 b` or one less, decided by one comparison. -/
def dexp (a b : ℕ) : ℤ :=
  let e0 : ℤ := (nlog2 a : ℤ) - (nlog2 b : ℤ)
  if pow2le e0 a b then e0 else e0 - 1

/-- Round the rational `a / b` (`0 < b`) to the nearest integer, ties to
even. -/
def rne (a b : ℕ) : ℕ :=
  let q := a / b
  let r := a % b
  if 2 * r < b then q
  else if b < 2 * r then q + 1
  else if q % 2 = 0 then q else q + 1

/-- The 53-bit significand of the binary64 value nearest to `a / b`: the
scaled value `(a / b) * 2 ^ (52 - e)` lies in `[2^52, 2^53)` and is rounded
to the nearest integer, ties to even (a result of `2^53` stands for the next
binade and needs no renormalization, since only the value `m * 2 ^ (e - 52)`
is consumed). -/
def mantissaRounded (a b : ℕ) (e : ℤ) : ℕ :=
  if 0 ≤ 52 - e then rne (a * 2 ^ (52 - e).toNat) b
  else rne a (b * 2 ^ (e - 52).toNat)

/-- Truncation toward zero of the nonnegative dyadic value `m * 2 ^ (e - 52)`
(Python `int()` of the rounded double). -/
def dyTrunc (m : ℕ) (e : ℤ) : ℕ :=
  if 0 ≤ e - 52 then m * 2 ^ (e - 52).toNat else m / 2 ^ (52 - e).toNat

/-- Python `int()` of the IEEE-754 binary64 rounding (round to nearest, ties
to even) of the nonnegative rational `a / b`: the product of line 138 is
computed in double precision, so the exact product is rounded to 53
significant bits before truncation.  Subnormal and overflow exponents are not
modelled (the values arising here are ordinary magnitudes). -/
def floatTrunc (a b : ℕ) : ℕ :=
  if a = 0 then 0
  else
    let e := dexp a b
    dyTrunc (mantissaRounded a b e) e

/-- Python `int(len * frac)` of line 138, where `frac` is the exact value of
the parsed double and the float product is one IEEE-754 rounding of the exact
product (exact for `len < 2^53`, where the int-to-float conversion of `len`
is lossless).  A negative fraction truncates to a nonpositive int, clamped to
0 as before by the slice model. -/
def pyFloatCut (len : ℕ) (frac : ℚ) : ℕ :=
  if frac.num < 0 then 0 else floatTrunc (len * frac.num.toNat) frac.den

/-- Lines 136-139: after the shuffle, cut at `int` of length times the split
fraction; train is the prefix, test the remainder. -/
def partitionSamples (shuffled : List String) (frac : ℚ) : List String × List String :=
  let k := pyFloatCut shuffled.length frac
  (shuffled.take k, shuffled.drop k)

/-- The floor of `len * frac` in exact rational arithmetic, computed on the
numerator and denominator - the quantity the original claim C6 asserts for
the train length. -/
def floorMul (len : ℕ) (frac : ℚ) : ℤ := ((len : ℤ) * frac.num).tdiv (frac.den : ℤ)

/-- The split fraction 9/10, written with transparent fields. -/
def ninetyPercent : ℚ := ⟨9, 10, by decide, by decide⟩

/-- The exact value of the double nearest to the literal 0.8999999999999999:
`8106479329266892 * 2 ^ (-53) = 2026619832316723 / 2 ^ 51`, written with
transparent fields. -/
def fracD : ℚ := ⟨2026619832316723, 2251799813685248, by decide, by decide⟩

/-- A ten-element sample list. -/
def l10 : List String :=
  ["s0", "s1", "s2", "s3", "s4", "s5", "s6", "s7", "s8", "s9"]

/-- The embedded `train` command, lines 94-255.  Presentation (echo/spinner),
the model build/load and codec encoding are external and not observed beyond
the recorded events; everything the claims speak about is embedded. -/
def trainCommand (opts : TrainOpts) (ext : Externals) :
    Except PyErr Outcome × List Event :=
  if opts.load.isSome ∧ opts.codec.isSome then
    (.error (.badOptionUsage "codec option is not supported when loading model"), [])
  else
    match resolve opts.spec opts.pad with
    | .error e => (.error e, [])
    | .ok geom =>
      let split := partitionSamples ext.shuffled opts.partition
      let tr := split.1
      let te := split.2
      let trainArgs : GTArgs :=
        { normalization := opts.normalization, reorder := opts.reorder,
          scale := some geom.scale, pad := geom.pad, format := geom.format }
      let testArgs : GTArgs :=
        { normalization := opts.normalization, reorder := opts.reorder,
          scale := none, pad := geom.pad, format := geom.format }
      let events := Event.corpusConstructed trainArgs ::
        (tr.map Event.sampleAdded ++
          Event.corpusConstructed testArgs :: te.map Event.sampleAdded)
      let optInst := constructOptimizer opts.optimizer opts.lrate opts.wdecay
      let cfg : LoopCfg :=
        { epochs := opts.epochs, savefreq := opts.savefreq, report := opts.report,
          output := opts.output, trials := tr.length, forward := ext.forward,
          saveResult := ext.saveResult, testPairs := te, errCounts := ext.errCounts }
      match runLoop cfg with
      | .error e => (.error e, events)
      | .ok n =>
        (.ok { optimizerUsed := optInst, trainArgs := trainArgs, testArgs := testArgs,
               trainIds := tr, testIds := te, completedEpochs := n }, events)

/-! ## Auxiliary predicates and concrete inputs -/

/-- Whether a parsed `(height, width, channels)` triple falls in one of the
four recognized geometry cases. -/
def caseOk (h w c : ℕ) : Bool :=
  decide (h = 1 ∧ w = 0 ∧ 3 < c) || decide (1 < h ∧ w = 0 ∧ (c = 1 ∨ c = 3)) ||
    decide (0 < h ∧ 0 < w ∧ (c = 1 ∨ c = 3)) || decide (h = 0 ∧ w = 0 ∧ (c = 1 ∨ c = 3))

/-- Malformedness of a descriptor in the amended sense of claim C5: the
stripped string is not bracket-wrapped, or the leading block has no prefix of
the form of four comma-separated non-negative integers, or the parsed triple
matches none of the four recognized cases.  (The original claim spoke of the
leading token *being* four comma-separated integers; `re.match` only anchors
a prefix, which the counterexample below exhibits.) -/
def malformedDescriptor (spec : String) : Bool :=
  let s := pyStrip spec.data
  !bracketOkL s ||
    (match parse4 (leadingBlockL s) with
     | none => true
     | some (_, h, w, c) => !caseOk h w c)

/-- A forward output acceptable to the dimension check of line 235: a tensor
whose size at index 2 equals 1. -/
def shapeOk (o : PyVal) : Prop := ∃ sh, o = PyVal.tensor sh ∧ sh.getD 2 0 = 1

/-- A concrete loop configuration used by witnesses. -/
def cfgC7 : LoopCfg :=
  { epochs := 3, savefreq := 1, report := 1, output := "model", trials := 1,
    forward := fun _ _ => .tensor [1, 1, 1, 7],
    saveResult := fun _ => .ok (), testPairs := ["t"],
    errCounts := fun _ => (2, 1) }

/-- Default external oracles for concrete runs: one shuffled sample, a network
output of collapsed height 1, successful saves, nonzero evaluation counts. -/
def extDefault : Externals :=
  { shuffled := ["a.png"], forward := fun _ _ => .tensor [1, 1, 1, 7],
    saveResult := fun _ => .ok (), errCounts := fun _ => (1, 0) }

/-- A run with split fraction 1 (empty test corpus), two epochs, report every
epoch. -/
def optsC2 : TrainOpts :=
  { pad := 16, output := "model", spec := "[1,48,0,1]", load := none, savefreq := 1,
    report := 1, epochs := 2, optimizer := .SGD, lrate := 1 / 1000, wdecay := 0,
    partition := 1, normalization := none, codec := none, reorder := true,
    ground_truth := ["a.png"] }

/-- A zero-epoch run with the strip geometry `[1,1,0,48]`, to observe the
corpus constructor arguments. -/
def optsC3 : TrainOpts := { optsC2 with spec := "[1,1,0,48]", epochs := 0 }

/-- A one-epoch run whose network output has collapsed height 48 instead of
1. -/
def optsC4 : TrainOpts := { optsC2 with epochs := 1 }

def extC4 : Externals := { extDefault with forward := fun _ _ => .tensor [1, 50, 48, 33] }

/-- A run supplying both an existing model and a codec. -/
def optsC8 : TrainOpts :=
  { optsC2 with load := some "existing.mlmodel", codec := some "codec.json" }

/-- The outcome of the `optsC3` run, written out field by field. -/
def outC3 : Outcome where
  optimizerUsed := { kind := "Adam", lr := 1 / 1000, wdecay := 0 }
  trainArgs := { normalization := none, reorder := true, scale := some (.int 48),
                 pad := 16, format := (1, 0, 2) }
  testArgs := { normalization := none, reorder := true, scale := none,
                pad := 16, format := (1, 0, 2) }
  trainIds := ["a.png"]
  testIds := []
  completedEpochs := 0

/-! ## Helper lemmas -/

theorem resolve_of_descriptorInts (s : String) (p b h w c : ℕ)
    (hp : descriptorInts s = some (b, h, w, c)) :
    resolve s p = classify b h w c p := by
  simp only [descriptorInts] at hp
  simp only [resolve]
  by_cases he : pyStrip s.data = []
  · rw [if_pos he] at hp; exact absurd hp (by simp)
  · rw [if_neg he] at hp ⊢
    by_cases hb : bracketOkL (pyStrip s.data)
    · rw [if_pos hb] at hp
      rw [if_pos hb, hp]
    · rw [if_neg hb] at hp; exact absurd hp (by simp)

theorem classify_ok_of_caseOk (b h w c p : ℕ) (hco : caseOk h w c = true) :
    ∃ g, classify b h w c p = .ok g := by
  have hco' : (h = 1 ∧ w = 0 ∧ 3 < c) ∨ (1 < h ∧ w = 0 ∧ (c = 1 ∨ c = 3)) ∨
      (0 < h ∧ 0 < w ∧ (c = 1 ∨ c = 3)) ∨ (h = 0 ∧ w = 0 ∧ (c = 1 ∨ c = 3)) := by
    simpa [caseOk, or_assoc] using hco
  unfold classify
  split_ifs <;> first | exact ⟨_, rfl⟩ | tauto

theorem caseOk_eq_true_iff (h w c : ℕ) : caseOk h w c = true ↔
    ((h = 1 ∧ w = 0 ∧ 3 < c) ∨ (1 < h ∧ w = 0 ∧ (c = 1 ∨ c = 3)) ∨
     (0 < h ∧ 0 < w ∧ (c = 1 ∨ c = 3)) ∨ (h = 0 ∧ w = 0 ∧ (c = 1 ∨ c = 3))) := by
  simp [caseOk, or_assoc]

theorem classify_err_of_not_caseOk (b h w c p : ℕ) (hco : caseOk h w c = false) :
    ∃ msg, classify b h w c p = .error (.badOptionUsage msg) := by
  have hco' : ¬((h = 1 ∧ w = 0 ∧ 3 < c) ∨ (1 < h ∧ w = 0 ∧ (c = 1 ∨ c = 3)) ∨
      (0 < h ∧ 0 < w ∧ (c = 1 ∨ c = 3)) ∨ (h = 0 ∧ w = 0 ∧ (c = 1 ∨ c = 3))) := by
    rw [← caseOk_eq_true_iff]
    simp [hco]
  have hn1 : ¬(h = 1 ∧ w = 0 ∧ 3 < c) := fun hx => hco' (Or.inl hx)
  have hn2 : ¬(1 < h ∧ w = 0 ∧ (c = 1 ∨ c = 3)) := fun hx => hco' (Or.inr (Or.inl hx))
  have hn3 : ¬(0 < h ∧ 0 < w ∧ (c = 1 ∨ c = 3)) :=
    fun hx => hco' (Or.inr (Or.inr (Or.inl hx)))
  have hn4 : ¬(h = 0 ∧ w = 0 ∧ (c = 1 ∨ c = 3)) :=
    fun hx => hco' (Or.inr (Or.inr (Or.inr hx)))
  unfold classify
  rw [if_neg hn1, if_neg hn2, if_neg hn3, if_neg hn4]
  exact ⟨_, rfl⟩

theorem floorMul_eq_floor (len : ℕ) (frac : ℚ) (h : 0 ≤ frac) :
    floorMul len frac = ⌊(len : ℚ) * frac⌋ := by
  have hnum : 0 ≤ (len : ℤ) * frac.num := mul_nonneg (by positivity) (Rat.num_nonneg.mpr h)
  have hden : (0 : ℤ) ≤ (frac.den : ℤ) := by positivity
  have hval : (len : ℚ) * frac = (((len : ℤ) * frac.num : ℤ) : ℚ) / ((frac.den : ℕ) : ℚ) := by
    rw [show ((((len : ℤ) * frac.num : ℤ)) : ℚ) = (len : ℚ) * (frac.num : ℚ) from by push_cast; ring,
      mul_div_assoc, Rat.num_div_den]
  rw [floorMul, Int.tdiv_eq_ediv hnum hden, hval, Rat.floor_intCast_div_natCast]

theorem dimCheck_ok (o : PyVal) (outS : String) (ho : shapeOk o) :
    dimCheck o (.str outS) = .ok () := by
  obtain ⟨sh, rfl, h1⟩ := ho
  simp only [dimCheck, pySize]
  rw [if_neg (by omega)]

theorem runTrials_ok (fw : ℕ → PyVal) (outS : String)
    (hfw : ∀ i, shapeOk (fw i)) : ∀ r t, runTrials fw outS t r = .ok () := by
  intro r
  induction r with
  | zero => intro t; rfl
  | succ n ih =>
    intro t
    simp only [runTrials]
    rw [dimCheck_ok (fw t) outS (hfw t)]
    exact ih (t + 1)

theorem epochBody_ok (cfg : LoopCfg) (epoch : ℕ)
    (hsf : cfg.savefreq ≠ 0) (hrp : cfg.report ≠ 0)
    (hfw : ∀ t, shapeOk (cfg.forward epoch t))
    (hc : (compute_error cfg.errCounts cfg.testPairs).1 ≠ 0) :
    epochBody cfg epoch = .ok () := by
  have hsave : saveStep cfg epoch = .ok () := by
    simp only [saveStep]
    by_cases he0 : epoch ≠ 0
    · rw [if_pos he0, if_neg hsf]
      by_cases hm : epoch % cfg.savefreq = 0
      · rw [if_pos hm]
        cases cfg.saveResult epoch <;> rfl
      · rw [if_neg hm]
    · rw [if_neg he0]
  have hrep : reportEpochStep cfg epoch = .ok () := by
    simp only [reportEpochStep]
    by_cases he0 : epoch ≠ 0
    · rw [if_pos he0, if_neg hrp]
      by_cases hm : epoch % cfg.report = 0
      · rw [if_pos hm]
        simp only [reportStep]
        rw [if_neg hc]
      · rw [if_neg hm]
    · rw [if_neg he0]
  simp only [epochBody]
  rw [runTrials_ok (cfg.forward epoch) cfg.output hfw cfg.trials 0, hsave, hrep]

theorem runFrom_ok (cfg : LoopCfg)
    (hsf : cfg.savefreq ≠ 0) (hrp : cfg.report ≠ 0)
    (hfw : ∀ ep t, shapeOk (cfg.forward ep t))
    (hc : (compute_error cfg.errCounts cfg.testPairs).1 ≠ 0) :
    ∀ r e, runFrom cfg e r = .ok (e + r) := by
  intro r
  induction r with
  | zero => intro e; rfl
  | succ n ih =>
    intro e
    simp only [runFrom]
    rw [epochBody_ok cfg e hsf hrp (hfw e) hc]
    rw [show e + (n + 1) = e + 1 + n from by omega]
    exact ih (e + 1)

/-! ## Claim theorems -/

/-- C1: for every descriptor string whose bracketed leading token parses as
four non-negative integers (batch, height, width, channels), geometry
resolution selects the first matching of four cases in a fixed priority
order: (1) height 1, width 0, channels above 3 yields the swapped axis order
`(1,0,2)` with scale mode `ScaleToHeight channels`; (2) height above 1, width
0, channels 1 or 3 yields the default axis order with `ScaleToHeight height`;
(3) positive height and width with channels 1 or 3 yields
`ScaleToFixed height width`; (4) height 0, width 0, channels 1 or 3 yields
`NoScale`; every other (height, width, channels) triple is rejected.  (The
four guards are pairwise disjoint, so the if-chain priority coincides with
this case list.) -/
theorem C1_geometry_resolution_cases (s : String) (p b h w c : ℕ)
    (hp : descriptorInts s = some (b, h, w, c)) :
    ((h = 1 ∧ w = 0 ∧ 3 < c) →
      resolve s p = .ok { format := (1, 0, 2), scale := .int c, pad := p } ∧
      scaleModeOf (.int c) = .ScaleToHeight c) ∧
    ((1 < h ∧ w = 0 ∧ (c = 1 ∨ c = 3)) →
      resolve s p = .ok { format := (0, 1, 2), scale := .int h, pad := p } ∧
      scaleModeOf (.int h) = .ScaleToHeight h) ∧
    ((0 < h ∧ 0 < w ∧ (c = 1 ∨ c = 3)) →
      resolve s p = .ok { format := (0, 1, 2), scale := .pair h w, pad := 0 } ∧
      scaleModeOf (.pair h w) = .ScaleToFixed h w) ∧
    ((h = 0 ∧ w = 0 ∧ (c = 1 ∨ c = 3)) →
      resolve s p = .ok { format := (0, 1, 2), scale := .int 0, pad := 0 } ∧
      scaleModeOf (.int 0) = .NoScale) ∧
    (¬(h = 1 ∧ w = 0 ∧ 3 < c) ∧ ¬(1 < h ∧ w = 0 ∧ (c = 1 ∨ c = 3)) ∧
      ¬(0 < h ∧ 0 < w ∧ (c = 1 ∨ c = 3)) ∧ ¬(h = 0 ∧ w = 0 ∧ (c = 1 ∨ c = 3)) →
      ∃ msg, resolve s p = .error (.badOptionUsage msg)) := by
  have hr := resolve_of_descriptorInts s p b h w c hp
  refine ⟨?_, ?_, ?_, ?_, ?_⟩
  · intro hg
    constructor
    · rw [hr]
      unfold classify
      rw [if_pos hg]
    · obtain ⟨n, rfl⟩ : ∃ n, c = n + 1 := ⟨c - 1, by omega⟩
      rfl
  · intro hg
    constructor
    · rw [hr]
      unfold classify
      rw [if_neg (by omega), if_pos hg]
    · obtain ⟨n, rfl⟩ : ∃ n, h = n + 1 := ⟨h - 1, by omega⟩
      rfl
  · intro hg
    constructor
    · rw [hr]
      unfold classify
      rw [if_neg (by omega), if_neg (by omega), if_pos hg]
    · rfl
  · intro hg
    constructor
    · rw [hr]
      unfold classify
      rw [if_neg (by omega), if_neg (by omega), if_neg (by omega), if_pos hg]
    · rfl
  · intro hg
    obtain ⟨hn1, hn2, hn3, hn4⟩ := hg
    rw [hr]
    unfold classify
    rw [if_neg hn1, if_neg hn2, if_neg hn3, if_neg hn4]
    exact ⟨_, rfl⟩

theorem C1_witness :
    resolve "[1,1,0,48]" 16 = .ok { format := (1, 0, 2), scale := .int 48, pad := 16 } ∧
    scaleModeOf (.int 48) = .ScaleToHeight 48 :=
  (C1_geometry_resolution_cases "[1,1,0,48]" 16 1 1 0 48 (by rfl)).1 (by omega)

/-- C9: geometry resolution forces padding to 0 in exactly the fully fixed
case (height and width positive) and the no-scale case (height 0, width 0),
regardless of the caller-supplied padding, and leaves the caller-supplied
padding unchanged in the two ScaleToHeight cases. -/
theorem C9_padding_forced_cases (s : String) (p b h w c : ℕ)
    (hp : descriptorInts s = some (b, h, w, c)) :
    ((0 < h ∧ 0 < w ∧ (c = 1 ∨ c = 3)) → ∃ g, resolve s p = .ok g ∧ g.pad = 0) ∧
    ((h = 0 ∧ w = 0 ∧ (c = 1 ∨ c = 3)) → ∃ g, resolve s p = .ok g ∧ g.pad = 0) ∧
    ((h = 1 ∧ w = 0 ∧ 3 < c) → ∃ g, resolve s p = .ok g ∧ g.pad = p) ∧
    ((1 < h ∧ w = 0 ∧ (c = 1 ∨ c = 3)) → ∃ g, resolve s p = .ok g ∧ g.pad = p) := by
  have hr := resolve_of_descriptorInts s p b h w c hp
  refine ⟨?_, ?_, ?_, ?_⟩
  · intro hg
    refine ⟨{ format := (0, 1, 2), scale := .pair h w, pad := 0 }, ?_, rfl⟩
    rw [hr]
    unfold classify
    rw [if_neg (by omega), if_neg (by omega), if_pos hg]
  · intro hg
    refine ⟨{ format := (0, 1, 2), scale := .int 0, pad := 0 }, ?_, rfl⟩
    rw [hr]
    unfold classify
    rw [if_neg (by omega), if_neg (by omega), if_neg (by omega), if_pos hg]
  · intro hg
    refine ⟨{ format := (1, 0, 2), scale := .int c, pad := p }, ?_, rfl⟩
    rw [hr]
    unfold classify
    rw [if_pos hg]
  · intro hg
    refine ⟨{ format := (0, 1, 2), scale := .int h, pad := p }, ?_, rfl⟩
    rw [hr]
    unfold classify
    rw [if_neg (by omega), if_pos hg]

theorem C9_witness :
    ∃ g, resolve "[1,48,128,1]" 16 = .ok g ∧ g.pad = 0 :=
  (C9_padding_forced_cases "[1,48,128,1]" 16 1 48 128 1 (by rfl)).1 (by omega)

/-- C5 counterexample: the claim says every malformed descriptor fails with
the configuration error and never any other exception.  But a descriptor that
strips to the empty string (malformed: it is not bracket-wrapped) raises
`IndexError` from `spec[0]`; and `[1,2,0,3junk]`, whose leading token is not
four comma-separated integers, is nevertheless accepted, because `re.match`
anchors only a prefix. -/
theorem C5_counterexample :
    resolve "" 16 = .error .indexError ∧
    resolve "[1,2,0,3junk]" 16 =
      .ok { format := (0, 1, 2), scale := .int 2, pad := 16 } :=
  ⟨rfl, rfl⟩

/-- C5 (amended): resolution is a pure total function (hence deterministic);
for every descriptor whose stripped form is nonempty, if it is malformed —
not bracket-wrapped, or the leading block lacks a prefix of four
comma-separated non-negative integers, or the parsed triple matches no
recognized case — resolution fails with the configuration error
(`BadOptionUsage`, the spec's `InvalidSpecError`), and otherwise it
succeeds. -/
theorem C5_amended_malformed_rejected (s : String) (p : ℕ)
    (hne : pyStrip s.data ≠ []) :
    (malformedDescriptor s = true →
      ∃ msg, resolve s p = .error (.badOptionUsage msg)) ∧
    (malformedDescriptor s = false → ∃ g, resolve s p = .ok g) := by
  by_cases hb : bracketOkL (pyStrip s.data)
  · cases hq : parse4 (leadingBlockL (pyStrip s.data)) with
    | none =>
      have hresn : resolve s p = .error (.badOptionUsage
          ("Invalid input spec " ++ String.mk (leadingBlockL (pyStrip s.data)))) := by
        simp only [resolve]
        rw [if_neg hne, if_pos hb, hq]
      have hmal : malformedDescriptor s = true := by
        simp only [malformedDescriptor]
        rw [hb, hq]
        rfl
      constructor
      · intro _
        exact ⟨_, hresn⟩
      · intro hfalse
        rw [hmal] at hfalse
        simp at hfalse
    | some q =>
      obtain ⟨b, h, w, c⟩ := q
      have hdi : descriptorInts s = some (b, h, w, c) := by
        simp only [descriptorInts]
        rw [if_neg hne, if_pos hb, hq]
      have hr := resolve_of_descriptorInts s p b h w c hdi
      have hmal : malformedDescriptor s = !caseOk h w c := by
        simp only [malformedDescriptor]
        rw [hb, hq]
        rfl
      constructor
      · intro htrue
        rw [hmal] at htrue
        have hcf : caseOk h w c = false := by
          cases hcc : caseOk h w c
          · rfl
          · rw [hcc] at htrue
            simp at htrue
        obtain ⟨msg, hmsg⟩ := classify_err_of_not_caseOk b h w c p hcf
        refine ⟨msg, ?_⟩
        rw [hr, hmsg]
      · intro hfalse
        rw [hmal] at hfalse
        have hct : caseOk h w c = true := by
          cases hcc : caseOk h w c
          · rw [hcc] at hfalse
            simp at hfalse
          · rfl
        obtain ⟨g, hg⟩ := classify_ok_of_caseOk b h w c p hct
        refine ⟨g, ?_⟩
        rw [hr, hg]
  · have hb' : bracketOkL (pyStrip s.data) = false := by
      cases hcc : bracketOkL (pyStrip s.data)
      · rfl
      · exact absurd hcc hb
    have hresb : resolve s p = .error (.badOptionUsage
        ("VGSL spec " ++ String.mk (pyStrip s.data) ++ " not bracketed")) := by
      simp only [resolve]
      rw [if_neg hne, if_neg hb]
    have hmal : malformedDescriptor s = true := by
      simp only [malformedDescriptor]
      rw [hb']
      rfl
    constructor
    · intro _
      exact ⟨_, hresb⟩
    · intro hfalse
      rw [hmal] at hfalse
      simp at hfalse

theorem C5_witness :
    ∃ msg, resolve "[1,0,128,1]" 16 = .error (.badOptionUsage msg) :=
  (C5_amended_malformed_rejected "[1,0,128,1]" 16 (by decide)).1 (by rfl)

/-- C6 counterexample: the claim asserts a train length of exactly
`floor(len * ratio)` of the exact product for every ratio in (0, 1].  But the
product is computed in double precision: at ratio 0.8999999999999999 - the
double `2026619832316723 / 2 ^ 51`, inside (0, 1] - with 10 samples, the
exact product is `9 - 2 ^ (-50)`, exactly half an ulp below 9; ties-to-even
rounds it up to 9.0, so `int()` yields a train set of 9 elements, while the
floor of the exact product is 8. -/
theorem C6_counterexample :
    0 < fracD ∧ fracD ≤ 1 ∧
    (partitionSamples l10 fracD).1.length = 9 ∧
    (⌊(l10.length : ℚ) * fracD⌋).toNat = 8 := by
  have hd : fracD = 2026619832316723 / 2251799813685248 := by
    rw [fracD, Rat.mk'_eq_divInt, Rat.divInt_eq_div]
    norm_num
  refine ⟨?_, ?_, ?_, ?_⟩
  · rw [hd]
    norm_num
  · rw [hd]
    norm_num
  · rfl
  · have hnn : (0 : ℚ) ≤ fracD := by
      rw [hd]
      norm_num
    rw [← floorMul_eq_floor l10.length fracD hnn]
    rfl

/-- C6 (amended): for every sample list, every shuffle of it and every split
fraction in (0, 1], partitioning returns as train set the first
`int(fl(len * fraction))` elements of the shuffled list - `fl` being the
IEEE-754 double rounding of the product, whose truncation can differ from the
floor of the exact product when rounding crosses an integer (see the
counterexample) - and as test set the remainder; the train length is that cut
clamped to the list length, the two lengths sum to the input length, and
every element appears in the two outputs exactly as often as in the input
(no duplication, no loss). -/
theorem C6_partition_no_loss (samples shuffled : List String) (frac : ℚ)
    (hperm : shuffled.Perm samples) (h0 : 0 < frac) (h1 : frac ≤ 1) :
    (partitionSamples shuffled frac).1 =
        shuffled.take (pyFloatCut samples.length frac) ∧
    (partitionSamples shuffled frac).2 =
        shuffled.drop (pyFloatCut samples.length frac) ∧
    (partitionSamples shuffled frac).1.length =
        min (pyFloatCut samples.length frac) samples.length ∧
    (partitionSamples shuffled frac).1.length + (partitionSamples shuffled frac).2.length
      = samples.length ∧
    (∀ x, (partitionSamples shuffled frac).1.count x +
        (partitionSamples shuffled frac).2.count x = samples.count x) := by
  have hlen : shuffled.length = samples.length := hperm.length_eq
  have hP : partitionSamples shuffled frac =
      (shuffled.take (pyFloatCut samples.length frac),
       shuffled.drop (pyFloatCut samples.length frac)) := by
    simp only [partitionSamples]
    rw [hlen]
  rw [hP]
  refine ⟨rfl, rfl, ?_, ?_, ?_⟩
  · rw [List.length_take, hlen]
  · rw [List.length_take, List.length_drop]
    omega
  · intro x
    rw [← List.count_append, List.take_append_drop]
    exact hperm.count_eq x

theorem ninetyPercent_eq_div : ninetyPercent = 9 / 10 := by
  rw [ninetyPercent, Rat.mk'_eq_divInt, Rat.divInt_eq_div]
  norm_num

theorem C6_witness :
    (partitionSamples ["c", "a", "b"] ninetyPercent).1 = ["c", "a"] ∧
    (partitionSamples ["c", "a", "b"] ninetyPercent).2 = ["b"] ∧
    (partitionSamples ["c", "a", "b"] ninetyPercent).1.length = 2 ∧
    (partitionSamples ["c", "a", "b"] ninetyPercent).1.length +
      (partitionSamples ["c", "a", "b"] ninetyPercent).2.length = 3 ∧
    (∀ x, (partitionSamples ["c", "a", "b"] ninetyPercent).1.count x +
      (partitionSamples ["c", "a", "b"] ninetyPercent).2.count x =
        (["a", "b", "c"] : List String).count x) := by
  have h := C6_partition_no_loss ["a", "b", "c"] ["c", "a", "b"] ninetyPercent (by decide)
    (by rw [ninetyPercent_eq_div]; norm_num) (by rw [ninetyPercent_eq_div]; norm_num)
  exact h

/-- C7: if a checkpoint save attempted at a savefreq boundary raises, the
exception is caught (lines 244-247) and training continues: for every save
oracle - including one that always fails - the loop still completes all
configured epochs, provided the other steps themselves do not raise (forward
outputs pass the dimension check and the evaluation count is nonzero). -/
theorem C7_save_failure_nonfatal (cfg : LoopCfg) (f : ℕ → Except String Unit)
    (hsf : cfg.savefreq ≠ 0) (hrp : cfg.report ≠ 0)
    (hfw : ∀ ep t, shapeOk (cfg.forward ep t))
    (hc : (compute_error cfg.errCounts cfg.testPairs).1 ≠ 0) :
    runLoop { cfg with saveResult := f } = .ok cfg.epochs := by
  have h := runFrom_ok { cfg with saveResult := f } hsf hrp hfw hc cfg.epochs 0
  simpa [runLoop] using h

theorem C7_witness :
    runLoop { cfgC7 with saveResult := fun _ => .error "disk full" } = .ok 3 :=
  C7_save_failure_nonfatal cfgC7 (fun _ => .error "disk full")
    (by decide) (by decide) (fun ep t => ⟨[1, 1, 1, 7], rfl, rfl⟩) (by decide)

/-- C2 (code bug evidence): with an empty test corpus (split fraction 1) the
report step at the first report boundary is not skipped; `compute_error`
yields correct count 0 and line 255 evaluates `(c - e) / c`, raising
`ZeroDivisionError` - the loop aborts instead of the claimed no-op. -/
theorem C2_empty_test_zero_division :
    (trainCommand optsC2 extDefault).1 = .error .zeroDivisionError ∧
    reportStep extDefault.errCounts [] = .error .zeroDivisionError :=
  ⟨rfl, rfl⟩

/-- C3 (code bug evidence): line 141 passes `scale=scale` to the train corpus
constructor but line 154 omits the scale argument for the test corpus, so the
two corpora are not constructed with identical geometry configuration. -/
theorem C3_test_corpus_missing_scale :
    ∃ out, (trainCommand optsC3 extDefault).1 = .ok out ∧
      out.trainArgs.scale = some (.int 48) ∧ out.testArgs.scale = none ∧
      out.trainArgs ≠ out.testArgs := by
  exact ⟨outC3, rfl, rfl, rfl, by decide⟩

/-- C4 (code bug evidence): when the forward output's dimension 2 differs
from 1, line 236 formats `output.size()` into the error message - but
`output` is the CLI output-path string, so the loop raises `AttributeError`
instead of the claimed `KrakenInputException` with expected-versus-actual
context. -/
theorem C4_dimension_error_masked :
    dimCheck (.tensor [1, 50, 48, 33]) (.str "model") =
      .error (.attributeError "str object has no attribute size") ∧
    (trainCommand optsC4 extC4).1 =
      .error (.attributeError "str object has no attribute size") :=
  ⟨rfl, rfl⟩

/-- C8: supplying both an existing-model path and an external codec makes the
command fail with the configuration error of line 95 before anything else
happens: the result carries an empty event trace, so no corpus is
constructed and no sample is ingested. -/
theorem C8_load_codec_conflict (opts : TrainOpts) (ext : Externals)
    (hl : opts.load.isSome = true) (hc : opts.codec.isSome = true) :
    trainCommand opts ext =
      (.error (.badOptionUsage "codec option is not supported when loading model"), []) := by
  simp only [trainCommand]
  rw [if_pos ⟨hl, hc⟩]

theorem C8_witness :
    trainCommand optsC8 extDefault =
      (.error (.badOptionUsage "codec option is not supported when loading model"), []) :=
  C8_load_codec_conflict optsC8 extDefault (by rfl) (by rfl)

/-- C10: the `--optimizer` choice has no effect - line 227 constructs `Adam`
with the given learning rate and weight decay unconditionally - so two runs
of the command differing only in the optimizer choice (same options
otherwise, same external oracles, hence same random draws) produce identical
results and event traces. -/
theorem C10_optimizer_choice_ignored :
    (∀ (opts : TrainOpts) (ext : Externals) (o₁ o₂ : OptChoice),
      trainCommand { opts with optimizer := o₁ } ext =
        trainCommand { opts with optimizer := o₂ } ext) ∧
    (∀ (ch : OptChoice) (lr wd : ℚ),
      constructOptimizer ch lr wd = { kind := "Adam", lr := lr, wdecay := wd }) :=
  ⟨fun _ _ _ _ => rfl, fun _ _ _ => rfl⟩

end Ketos
